import Mathlib

/-!
Verification development for the Playwright UI-test orchestration repository
(customer-portal insurance-quoting test suite).

The embedding covers:
* `reporters/CustomHtmlReporter.ts` — `escapeHtml`, `onTestEnd` title parsing,
  status mapping, summary counters, and the table-row template;
* `tests/pages/HomePage.ts` — `retryClick` and `waitForLoadingComplete`;
* `tests/all-test-suite.spec.ts` — `TestHelpers.selectFromKendoDropdown`,
  `TestHelpers.selectDeductibleInSection`, the module-level `results` array,
  the scenario bodies' result pushes, and the `afterAll` report generation;
* `tests/test-suite.spec.ts` — the inline TS002 limit-dropdown selection and
  the Customer-Accounts navigation retry loop.

Strings are modelled as `List Char`.  Browser/DOM behaviour is modelled as an
explicit environment (per-attempt outcome functions); wall-clock durations are
passed in as parameters.
-/

namespace Spec2Proof

/-- The double-quote character (code point 34), one of the five characters
escaped by the reporter. -/
def dquoteChar : Char := Char.ofNat 34

/-- The single-quote character (code point 39), one of the five characters
escaped by the reporter. -/
def squoteChar : Char := Char.ofNat 39

/-- JS `String.prototype.replace(/c/g, repl)` for a single-character pattern:
every occurrence of `target` is replaced by the string `repl`. -/
def replaceChar (target : Char) (repl : List Char) : List Char → List Char
  | [] => []
  | c :: rest => (if c = target then repl else [c]) ++ replaceChar target repl rest

/-- The entity emitted for a raw ampersand. -/
def entAmp : List Char := ['&', 'a', 'm', 'p', ';']

/-- The entity emitted for a raw less-than sign. -/
def entLt : List Char := ['&', 'l', 't', ';']

/-- The entity emitted for a raw greater-than sign. -/
def entGt : List Char := ['&', 'g', 't', ';']

/-- The entity emitted for a raw double quote. -/
def entQuot : List Char := ['&', 'q', 'u', 'o', 't', ';']

/-- The entity emitted for a raw single quote. -/
def entApos : List Char := ['&', '#', '0', '3', '9', ';']

/-- The five entities the reporter can emit. -/
def entityList : List (List Char) := [entAmp, entLt, entGt, entQuot, entApos]

/-- `escapeHtml` from `reporters/CustomHtmlReporter.ts`: the chain of five
global replaces, ampersand first, then `<`, `>`, `"`, `'`. -/
def escapeHtml (s : List Char) : List Char :=
  replaceChar squoteChar entApos
    (replaceChar dquoteChar entQuot
      (replaceChar '>' entGt
        (replaceChar '<' entLt
          (replaceChar '&' entAmp s))))

/-- Single-character view of the replace chain: what one input character
contributes to the output of `escapeHtml`. -/
def escChar (c : Char) : List Char :=
  if c = '&' then entAmp
  else if c = '<' then entLt
  else if c = '>' then entGt
  else if c = dquoteChar then entQuot
  else if c = squoteChar then entApos
  else [c]

/-- JS `title.split(':')` specialised to the colon separator; always returns a
non-empty list of segments, `[""]` for the empty string. -/
def splitOnColon : List Char → List (List Char)
  | [] => [[]]
  | c :: rest =>
      let r := splitOnColon rest
      if c = ':' then [] :: r
      else (c :: r.headD []) :: r.tail

/-- JS `rest.join(':')`: joins a list of segments with a colon; the empty list
joins to the empty string. -/
def joinColon : List (List Char) → List Char
  | [] => []
  | [x] => x
  | x :: y :: rest => x ++ ':' :: joinColon (y :: rest)

/-- JS `String.prototype.trim()`: strips leading and trailing whitespace. -/
def trimStr (s : List Char) : List Char :=
  ((s.dropWhile Char.isWhitespace).reverse.dropWhile Char.isWhitespace).reverse

/-- Playwright's terminal test statuses as delivered to `onTestEnd`. -/
inductive PwStatus where
  | passed
  | failed
  | timedOut
  | skipped
  | interrupted
deriving DecidableEq, Repr

/-- The three statuses a `TestReport` record can carry. -/
inductive RStatus where
  | passed
  | failed
  | skipped
deriving DecidableEq, Repr

/-- The status mapping in `onTestEnd`: `timedOut` and `interrupted` map to
`failed`; the other statuses pass through. -/
def mapStatus : PwStatus → RStatus
  | .passed => .passed
  | .failed => .failed
  | .timedOut => .failed
  | .skipped => .skipped
  | .interrupted => .failed

/-- The `TestReport` record interface of `CustomHtmlReporter.ts`. -/
structure TestReport where
  testId : List Char
  testName : List Char
  status : RStatus
  duration : Nat
  timestamp : List Char
deriving DecidableEq, Repr

/-- `onTestEnd` from `CustomHtmlReporter.ts`: splits the title on `:`,
derives `testId` from the trimmed first segment and `testName` from the
trimmed colon-rejoined rest, falling back to the full title when a trimmed
segment is empty, and maps the Playwright status. -/
def onTestEnd (title : List Char) (status : PwStatus) (duration : Nat)
    (timestamp : List Char) : TestReport :=
  let parts := splitOnColon title
  let maybeId := parts.headD []
  let rest := parts.tail
  let tid := if trimStr maybeId = [] then title else trimStr maybeId
  let tname := if trimStr (joinColon rest) = [] then title else trimStr (joinColon rest)
  { testId := tid, testName := tname, status := mapStatus status,
    duration := duration, timestamp := timestamp }

/-- `total` in `onEnd`: number of collected reports. -/
def totalOf (reports : List TestReport) : Nat := reports.length

/-- `passed` in `onEnd`: reports whose status is `passed`. -/
def passedOf (reports : List TestReport) : Nat :=
  (reports.filter (fun r => r.status = RStatus.passed)).length

/-- `failed` in `onEnd`: reports whose status is `failed`. -/
def failedOf (reports : List TestReport) : Nat :=
  (reports.filter (fun r => r.status = RStatus.failed)).length

/-- `skipped` in `onEnd`: reports whose status is `skipped`. -/
def skippedOf (reports : List TestReport) : Nat :=
  (reports.filter (fun r => r.status = RStatus.skipped)).length

/-- Percentage with one decimal digit, in tenths of a percent, rounding half
up: an exact-rational model of JS `((passed / total) * 100).toFixed(1)` for
`total > 0` (the floating-point computation agrees with the exact rational one
on all realistic report counts). -/
def rateTenths (passed total : Nat) : Nat :=
  (passed * 2000 + total) / (2 * total)

/-- Renders tenths of a percent as the JS `toFixed(1)` digit string. -/
def tenthsToFixed1 (t : Nat) : List Char :=
  Nat.toDigits 10 (t / 10) ++ '.' :: Nat.toDigits 10 (t % 10)

/-- `passRate` in `onEnd`: the ternary `total ? ((passed/total)*100).toFixed(1)
: '0.0'`. -/
def passRate (reports : List TestReport) : List Char :=
  if totalOf reports = 0 then '0' :: '.' :: ['0']
  else tenthsToFixed1 (rateTenths (passedOf reports) (totalOf reports))

/-- Status cell text: the lower-case status word embedded in the row. -/
def statusText : RStatus → List Char
  | .passed => ['p', 'a', 's', 's', 'e', 'd']
  | .failed => ['f', 'a', 'i', 'l', 'e', 'd']
  | .skipped => ['s', 'k', 'i', 'p', 'p', 'e', 'd']

/-- Template text of the row up to the Test ID cell. -/
def rowSeg1 : List Char := "\n                <tr>\n                  <td>".toList

/-- Template text between the Test ID and Test Name cells. -/
def rowSeg2 : List Char := "</td>\n                  <td>".toList

/-- Template text between the Test Name cell and the status span class. -/
def rowSeg3 : List Char :=
  "</td>\n                  <td><span class=\"status ".toList

/-- Template text between the status class and the status cell content. -/
def rowSeg4 : List Char := "\">".toList

/-- Template text between the status cell and the duration cell. -/
def rowSeg5 : List Char := "</span></td>\n                  <td>".toList

/-- Template text between the duration and timestamp cells. -/
def rowSeg6 : List Char := "</td>\n                  <td>".toList

/-- Template text closing the row. -/
def rowSeg7 : List Char := "</td>\n                </tr>\n              ".toList

/-- One `<tr>` of the results table in `onEnd`: `testId`, `testName` and the
status (twice: class attribute and cell text) pass through `escapeHtml`;
`durStr` and `tsStr` are the locale renderings of the duration and timestamp
(`toLocaleString`), supplied by the environment. -/
def renderTableRow (r : TestReport) (durStr tsStr : List Char) : List Char :=
  rowSeg1 ++ escapeHtml r.testId ++
  rowSeg2 ++ escapeHtml r.testName ++
  rowSeg3 ++ escapeHtml (statusText r.status) ++
  rowSeg4 ++ escapeHtml (statusText r.status) ++
  rowSeg5 ++ durStr ++
  rowSeg6 ++ tsStr ++
  rowSeg7

/-- The joined row markup of `onEnd` (`this.reports.map(...).join('')`), with
the locale renderers supplied by the environment. -/
def renderRows (locN : Nat → List Char) (locD : List Char → List Char)
    (reports : List TestReport) : List Char :=
  (reports.map (fun r => renderTableRow r (locN r.duration) (locD r.timestamp))).flatten

/-! ## Interaction primitives

The browser is modelled as an explicit environment: each primitive receives a
function from the attempt index to that attempt's outcome.  `PwError` models
the typed failures the underlying driver throws. -/

/-- Typed failures surfaced by the automation driver: a wait/click timeout
(carrying the condition description) or any other error. -/
inductive PwError where
  | timeout (msg : List Char)
  | other (msg : List Char)
deriving DecidableEq, Repr

/-- Loop body compilation of `HomePage.retryClick`'s
`for (attempt = 1; attempt <= maxAttempts; attempt++)`:
`attempt` is the current index, `remaining = maxAttempts - attempt + 1` is the
number of iterations left (so `remaining = 1` exactly when
`attempt === maxAttempts`, the re-throw guard in the source).  `outcome
attempt = none` means the wait-visible/click sequence of that attempt
succeeded; `some e` means it threw `e`.  Returns the number of attempts
performed and the result (`ok true` on a successful click, `ok false` when the
loop exits without running, `error e` for the re-thrown final failure). -/
def retryClickFrom (outcome : Nat → Option PwError) (attempt : Nat) :
    Nat → Nat × Except PwError Bool
  | 0 => (0, Except.ok false)
  | r + 1 =>
      match outcome attempt with
      | none => (1, Except.ok true)
      | some e =>
          if r = 0 then (1, Except.error e)
          else
            let p := retryClickFrom outcome (attempt + 1) r
            (p.1 + 1, p.2)

/-- `HomePage.retryClick(locator, maxAttempts = 3)`: attempts start at 1. -/
def retryClick (outcome : Nat → Option PwError) (maxAttempts : Nat) :
    Nat × Except PwError Bool :=
  retryClickFrom outcome 1 maxAttempts

/-- `HomePage.waitForLoadingComplete`: the `pace-running` busy-flag wait
wrapped in `try/catch` — a timeout is caught and logged, never re-thrown.
`outcome = none` models clearance within the timeout, `some e` a throw. -/
def waitForLoadingComplete (outcome : Option PwError) : Except PwError Unit :=
  match outcome with
  | none => Except.ok ()
  | some _ => Except.ok ()

/-- The bare `page.waitForFunction(() => !document.body.classList.contains(
'pace-running'), ...)` call after the search click in TS001
(`test-suite.spec.ts` line 44 and `all-test-suite.spec.ts` line 44): no
`.catch` is attached, so a timeout propagates to the scenario. -/
def paceRunningWaitBare (outcome : Option PwError) : Except PwError Unit :=
  match outcome with
  | none => Except.ok ()
  | some e => Except.error e

/-- The two `pace-running` waits of the TS001 scenario body in sequence: the
pre-search wait carries `.catch(() => console.log(...))` (modelled by
`waitForLoadingComplete`), the post-search wait is bare. -/
def ts001PaceChecks (preSearch postSearch : Option PwError) :
    Except PwError Unit :=
  match waitForLoadingComplete preSearch with
  | Except.error e => Except.error e
  | Except.ok _ => paceRunningWaitBare postSearch

/-- JS `s.includes(pat)`: substring containment on `List Char`. -/
def strIncludes (s pat : List Char) : Bool :=
  (List.range (s.length + 1)).any (fun i => (s.drop i).take pat.length = pat)

/-- Typed failure of the dropdown-select helper: the option text was not
found within the retry budget (the `throw new Error('Failed to select option
...')` at the end of `selectFromKendoDropdown`). -/
inductive KendoErr where
  | optionNotFound (optionText : List Char) (maxRetries : Nat)
deriving DecidableEq, Repr

/-- Loop compilation of the `for (attempt = 0; attempt < maxRetries;
attempt++)` retry loop of `TestHelpers.selectFromKendoDropdown`: each cycle
clicks the dropdown trigger (one click), then, if the option list is visible
(`listVis attempt`) and the desired option is visible in it
(`optVis attempt`), clicks the option (a second click) and succeeds.
`remaining` is the number of cycles left.  Returns the number of click events
issued and the outcome. -/
def kendoLoop (listVis optVis : Nat → Bool) (optionText : List Char)
    (maxRetries : Nat) (attempt : Nat) : Nat → Nat × Except KendoErr Unit
  | 0 => (0, Except.error (KendoErr.optionNotFound optionText maxRetries))
  | r + 1 =>
      if listVis attempt then
        if optVis attempt then (2, Except.ok ())
        else
          let p := kendoLoop listVis optVis optionText maxRetries (attempt + 1) r
          (p.1 + 1, p.2)
      else
        let p := kendoLoop listVis optVis optionText maxRetries (attempt + 1) r
        (p.1 + 1, p.2)

/-- `TestHelpers.selectFromKendoDropdown(selector, optionText, maxRetries = 3)`
from `all-test-suite.spec.ts`: reads the trigger's `textContent`
(`currentValue`, `none` models a null `textContent`); if
`currentValue.trim().includes(optionText)` the interaction is skipped entirely
(zero clicks, success); otherwise the open/search retry loop runs.  Returns
the number of click events issued and the outcome. -/
def selectFromKendoDropdown (currentValue : Option (List Char))
    (optionText : List Char) (listVis optVis : Nat → Bool)
    (maxRetries : Nat) : Nat × Except KendoErr Unit :=
  match currentValue with
  | some v =>
      if strIncludes (trimStr v) optionText then (0, Except.ok ())
      else kendoLoop listVis optVis optionText maxRetries 0 maxRetries
  | none => kendoLoop listVis optVis optionText maxRetries 0 maxRetries

/-! ## Inline TS002 limit-dropdown selection (`test-suite.spec.ts`) -/

/-- Failures of the inline limit-dropdown selection: the option list never
appeared within the three re-click cycles (`throw new Error('Dropdown list did
not appear for Limit selection')`), or the `25,000` option row failed its
visibility assertion. -/
inductive LimitErr where
  | listNotVisible
  | optionNotVisible
deriving DecidableEq, Repr

/-- The desired limit option text `'25,000'`. -/
def limitTarget : List Char := "25,000".toList

/-- The `for (let i = 0; i < 3; i++)` re-click loop of the inline limit
selection: at each iteration, if the option list is visible (`listVis i`) the
loop breaks; otherwise the trigger is force-clicked once more.  Returns the
number of force clicks issued and the index of the succeeding check, if any. -/
def limitOpenLoop (listVis : Nat → Bool) (i : Nat) : Nat → Nat × Option Nat
  | 0 => (0, none)
  | r + 1 =>
      if listVis i then (0, some i)
      else
        let p := limitOpenLoop listVis (i + 1) r
        (p.1 + 1, p.2)

/-- The inline limit-dropdown selection of TS002 in `test-suite.spec.ts`
(lines 839-869): clicks the trigger once, re-clicks up to 3 times until the
option list is visible (else throws), asserts the `25,000` option visible
(`optVisible`), then reads the currently selected text and clicks the option
only when `selectedLimit.trim() !== '25,000'`.  Returns the number of click
events issued on the dropdown and the outcome. -/
def limitSelect (listVis : Nat → Bool) (optVisible : Bool)
    (selectedLimit : List Char) : Nat × Except LimitErr Unit :=
  let p := limitOpenLoop listVis 0 3
  let clicks := 1 + p.1
  match p.2 with
  | none => (clicks, Except.error LimitErr.listNotVisible)
  | some _ =>
      if optVisible then
        if trimStr selectedLimit = limitTarget then (clicks, Except.ok ())
        else (clicks + 1, Except.ok ())
      else (clicks, Except.error LimitErr.optionNotVisible)

/-! ## Selector-strategy chain (`TestHelpers.selectDeductibleInSection`) -/

/-- The five-strategy fallback chain of
`TestHelpers.selectDeductibleInSection` (`all-test-suite.spec.ts` lines
172-235).  `vis k` is whether strategy `k`'s locator resolves to a visible
section.  The source builds strategy 1's locator, checks visibility, and on
failure logs `Strategy k failed ... trying ...` and rebuilds with the next
strategy; the final check re-checks the last assigned locator and throws when
it is not visible.  Returns the ordered strategy-attempt log (the strategies
whose visibility was checked) and the succeeding strategy, if any. -/
def resolveSection (vis : Nat → Bool) : List Nat × Option Nat :=
  if vis 1 then ([1], some 1)
  else if vis 2 then ([1, 2], some 2)
  else if vis 3 then ([1, 2, 3], some 3)
  else if vis 4 then ([1, 2, 3, 4], some 4)
  else if vis 5 then ([1, 2, 3, 4, 5], some 5)
  else ([1, 2, 3, 4, 5], none)

/-! ## Test-step level navigation retry (`test-suite.spec.ts` TS004/TS005) -/

/-- Loop compilation of the `while (retryCount < maxRetries)` navigation
retry in the `Navigate to Customer Accounts` test step (`test-suite.spec.ts`
lines 363-378): each iteration invokes
`homePage.navigateToCustomerAccounts(); accountsPage.waitForPageLoad()`
(outcome `none` = success, `some e` = throw); on failure `retryCount` is
incremented and, when it reaches `maxRetries` (`remaining = 1` here), the
error is re-thrown.  Returns the number of invocations of the page-object
operation and the result. -/
def navRetryFrom (outcome : Nat → Option PwError) (attempt : Nat) :
    Nat → Nat × Except PwError Unit
  | 0 => (0, Except.ok ())
  | r + 1 =>
      match outcome attempt with
      | none => (1, Except.ok ())
      | some e =>
          if r = 0 then (1, Except.error e)
          else
            let p := navRetryFrom outcome (attempt + 1) r
            (p.1 + 1, p.2)

/-- The navigation test step with its hard-coded `maxRetries = 3`. -/
def navigateStepRetry (outcome : Nat → Option PwError) :
    Nat × Except PwError Unit :=
  navRetryFrom outcome 0 3

/-! ## Run pipeline of `all-test-suite.spec.ts` (module results + afterAll) -/

/-- Terminal statuses of the `TestResult` interface in `utils/reporter.ts`. -/
inductive PFStatus where
  | pass
  | fail
deriving DecidableEq, Repr

/-- The `TestResult` record interface of `utils/reporter.ts`. -/
structure TestResult where
  testId : List Char
  testName : List Char
  status : PFStatus
  duration : Nat
deriving DecidableEq, Repr

/-- Builds the record a scenario pushes on completion. -/
def mkResult (id name : String) (ok : Bool) (d : Nat) : TestResult :=
  { testId := id.toList, testName := name.toList,
    status := if ok then PFStatus.pass else PFStatus.fail, duration := d }

/-- Whether each test body of `all-test-suite.spec.ts` runs to completion
without throwing, plus, for a TS002 failure, whether the error message
contains `'TS002'` (the catch block derives the pushed id from it). -/
structure SuiteOutcomes where
  t1 : Bool
  t2 : Bool
  t2ErrMentionsTs002 : Bool
  t4 : Bool
  t5 : Bool
  t6 : Bool
  t7 : Bool
deriving DecidableEq, Repr

/-- The records the TS002 test body pushes — to its scenario-local `const
results` array (line 293), which shadows the module-level one: on success the
mid-test `TS002` record and the final `TS007` record, on failure the single
record chosen by the error message. -/
def ts002LocalRecords (ok errMentionsTs002 : Bool) (d : Nat) :
    List TestResult :=
  if ok then
    [mkResult "TS002" "Verify New Quote Creation Flow" true d,
     mkResult "TS007" "Verify Account Form Fill and Proceed to Application" true d]
  else if errMentionsTs002 then
    [mkResult "TS002" "Verify New Quote Creation Flow" false d]
  else
    [mkResult "TS007" "Verify Account Form Fill and Proceed to Application" false d]

/-- Serial execution of the `Customer Portal Test Suite` in
`all-test-suite.spec.ts` (`test.describe.configure({ mode: 'serial' })`): each
test pushes its completion record to the module-level `results` array —
except TS002, whose pushes land in its local shadowing array — and after a
failing test the remaining tests of the serial group are skipped (they push
nothing).  All records use the environment-supplied duration `d`.  Returns
the module-level `results` array (the one the `afterAll` hook reads) paired
with TS002's local array. -/
def runAllTestSuite (o : SuiteOutcomes) (d : Nat) :
    List TestResult × List TestResult :=
  let m := [mkResult "TS001" "Verify Customer Search by Account Name" o.t1 d]
  if o.t1 then
    let l2 := ts002LocalRecords o.t2 o.t2ErrMentionsTs002 d
    if o.t2 then
      let m := m ++ [mkResult "TS003" "Customer Accounts Menu Redirect" o.t4 d]
      if o.t4 then
        let m := m ++ [mkResult "TS004" "Verify Customer Accounts Filter Search" o.t5 d]
        if o.t5 then
          let m := m ++ [mkResult "TS005" "Verify Quotes Navigation" o.t6 d]
          if o.t6 then
            (m ++ [mkResult "TS006" "Verify Quotes Filter" o.t7 d], l2)
          else (m, l2)
        else (m, l2)
      else (m, l2)
    else (m, l2)
  else (m, [])

/-- The list handed to `saveResultsToJson`/`generateHtmlReport` by the
`test.afterAll` hook (lines 1059-1062): the module-level `results` array. -/
def afterAllReport (o : SuiteOutcomes) (d : Nat) : List TestResult :=
  (runAllTestSuite o d).1

/-! ## Spec-side definitions used to state the claims -/

/-- Ampersand safety of an escaped string: wherever a `'&'` occurs, the text
from that position on starts with one of the five emitted entities. -/
def ampSafeProp (l : List Char) : Prop :=
  ∀ i, (l.drop i).head? = some '&' →
    ∃ e r, e ∈ entityList ∧ l.drop i = e ++ r

/-- Stated from the claim's words: the segment of the title before the first
colon (the whole title when it has no colon). -/
def segBeforeColon (title : List Char) : List Char :=
  title.takeWhile (fun c => !(c == ':'))

/-- Stated from the claim's words: the remainder of the title after the first
colon, colons preserved (empty when the title has no colon); this is what
rejoining the remaining split segments with `':'` yields. -/
def segAfterColon (title : List Char) : List Char :=
  (title.dropWhile (fun c => !(c == ':'))).tail

/-! ## Helper lemmas -/

lemma retryClickFrom_allFail (outcome : Nat → Option PwError) (m : Nat → List Char)
    (h : ∀ i, outcome i = some (PwError.timeout (m i))) :
    ∀ r a, 0 < r →
      retryClickFrom outcome a r =
        (r, Except.error (PwError.timeout (m (a + r - 1)))) := by
  intro r
  induction r with
  | zero => intro a ha; exact absurd ha (by omega)
  | succ r ih =>
      intro a _
      simp only [retryClickFrom, h a]
      by_cases h0 : r = 0
      · subst h0; simp
      · simp only [h0, if_false]
        rw [ih (a + 1) (Nat.pos_of_ne_zero h0)]
        have harith : a + 1 + r - 1 = a + (r + 1) - 1 := by omega
        simp [harith]

lemma kendoLoop_allFail (listVis optVis : Nat → Bool) (t : List Char) (mr : Nat)
    (h : ∀ i, listVis i = false ∨ optVis i = false) :
    ∀ r a, kendoLoop listVis optVis t mr a r =
      (r, Except.error (KendoErr.optionNotFound t mr)) := by
  intro r
  induction r with
  | zero => intro a; rfl
  | succ r ih =>
      intro a
      cases hv : listVis a with
      | false => simp [kendoLoop, hv, ih (a + 1)]
      | true =>
          have ho : optVis a = false := by
            rcases h a with hl | ho
            · rw [hv] at hl; exact absurd hl (by simp)
            · exact ho
          simp [kendoLoop, hv, ho, ih (a + 1)]

/-! ## Claim theorems -/

/-- C3: against a target that never becomes clickable (every attempt's
wait-visible/click sequence throws a Timeout), `retryClick` with
`maxAttempts = 3` performs exactly 3 attempts — not 2, not unboundedly many —
and re-raises the Timeout failure of the last (third) attempt. -/
theorem retryClick_neverClickable_exactly_three_attempts
    (outcome : Nat → Option PwError) (m : Nat → List Char)
    (h : ∀ i, outcome i = some (PwError.timeout (m i))) :
    retryClick outcome 3 = (3, Except.error (PwError.timeout (m 3))) := by
  have hmain := retryClickFrom_allFail outcome m h 3 1 (by omega)
  simpa [retryClick] using hmain

/-- Witness for C3: a concrete never-clickable environment. -/
theorem retryClick_neverClickable_witness :
    retryClick (fun _ => some (PwError.timeout [])) 3 =
      (3, Except.error (PwError.timeout [])) :=
  retryClick_neverClickable_exactly_three_attempts
    (fun _ => some (PwError.timeout [])) (fun _ => []) (fun _ => rfl)

/-- C5: when only the 3rd of the five strategies in
`selectDeductibleInSection`'s chain matches, resolution attempts strategies 1
and 2 first (both appear in the attempt log), succeeds via strategy 3, and no
strategy appears in the log before every earlier one was attempted and had
failed. -/
theorem selectorChain_third_strategy (vis : Nat → Bool)
    (h1 : vis 1 = false) (h2 : vis 2 = false) (h3 : vis 3 = true) :
    resolveSection vis = ([1, 2, 3], some 3) ∧
    ∀ j ∈ (resolveSection vis).1, ∀ i, 0 < i → i < j →
      i ∈ (resolveSection vis).1 ∧ vis i = false := by
  have hr : resolveSection vis = ([1, 2, 3], some 3) := by
    simp [resolveSection, h1, h2, h3]
  refine ⟨hr, ?_⟩
  rw [hr]
  intro j hj i hip hij
  simp only [List.mem_cons, List.not_mem_nil, or_false] at hj
  have hi12 : i = 1 ∨ i = 2 := by rcases hj with rfl | rfl | rfl <;> omega
  rcases hi12 with rfl | rfl <;> simp [h1, h2]

/-- Witness for C5: an environment in which exactly strategy 3 matches. -/
theorem selectorChain_third_strategy_witness :
    resolveSection (fun n => n == 3) = ([1, 2, 3], some 3) :=
  (selectorChain_third_strategy (fun n => n == 3) rfl rfl rfl).1

/-- C6: when the already-selected short-circuit does not fire and the desired
option text is never found (in every cycle the list fails to appear or the
option is not in it), `selectFromKendoDropdown` performs exactly its
`maxRetries` open/search cycles (one trigger click each, never an option
click) and then fails with the typed option-not-found condition. -/
theorem kendoSelect_optionNotFound (cur : Option (List Char))
    (optionText : List Char) (listVis optVis : Nat → Bool) (maxRetries : Nat)
    (hshort : ∀ v, cur = some v → strIncludes (trimStr v) optionText = false)
    (hnever : ∀ i, listVis i = false ∨ optVis i = false) :
    selectFromKendoDropdown cur optionText listVis optVis maxRetries =
      (maxRetries, Except.error (KendoErr.optionNotFound optionText maxRetries)) := by
  cases cur with
  | none =>
      simp [selectFromKendoDropdown,
        kendoLoop_allFail listVis optVis optionText maxRetries hnever maxRetries 0]
  | some v =>
      simp [selectFromKendoDropdown, hshort v rfl,
        kendoLoop_allFail listVis optVis optionText maxRetries hnever maxRetries 0]

/-- Witness for C6: a concrete environment in which the option never
appears. -/
theorem kendoSelect_optionNotFound_witness :
    selectFromKendoDropdown (some ['x']) ['y'] (fun _ => false) (fun _ => false) 3 =
      (3, Except.error (KendoErr.optionNotFound ['y'] 3)) :=
  kendoSelect_optionNotFound (some ['x']) ['y'] (fun _ => false) (fun _ => false) 3
    (fun v hv => by cases hv; decide) (fun _ => Or.inl rfl)

/-- A string always includes itself as a substring (`s.includes(s)`). -/
lemma strIncludes_self (s : List Char) : strIncludes s s = true := by
  have h0 : (0 : Nat) ∈ List.range (s.length + 1) := by simp
  simp only [strIncludes, List.any_eq_true]
  exact ⟨0, h0, by simp⟩

/-- C4 counterexample: the inline TS002 limit-dropdown selection of
`test-suite.spec.ts` clicks the trigger to open the list before its
already-selected check, so with the list visible at the first check and
`25,000` already displayed it issues one click event, not zero. -/
theorem limitSelect_alreadySelected_still_clicks :
    limitSelect (fun _ => true) true limitTarget = (1, Except.ok ()) ∧
    (limitSelect (fun _ => true) true limitTarget).1 ≠ 0 :=
  ⟨rfl, by decide⟩

/-- C4 (amended): `TestHelpers.selectFromKendoDropdown` short-circuits when
the trimmed displayed value equals (hence includes) the desired option,
issuing zero click events and succeeding; the inline TS002 limit selection
instead opens the list first and only skips the final option click, issuing
exactly one click when the list appears at the first check and the value is
already `25,000`. -/
theorem kendoSelect_idempotent_shortCircuit (v optionText : List Char)
    (listVis optVis : Nat → Bool) (maxRetries : Nat)
    (h : trimStr v = optionText) :
    selectFromKendoDropdown (some v) optionText listVis optVis maxRetries =
      (0, Except.ok ()) ∧
    ∀ lv sel, lv 0 = true → trimStr sel = limitTarget →
      limitSelect lv true sel = (1, Except.ok ()) := by
  constructor
  · simp [selectFromKendoDropdown, h, strIncludes_self]
  · intro lv sel h0 hsel
    have hopen : limitOpenLoop lv 0 3 = (0, some 0) := by
      rw [show (3 : Nat) = 2 + 1 from rfl]
      simp [limitOpenLoop, h0]
    simp [limitSelect, hopen, hsel]

/-- Witness for C4 (amended): a dropdown already displaying the desired
option. -/
theorem kendoSelect_idempotent_witness :
    selectFromKendoDropdown (some limitTarget) limitTarget
      (fun _ => false) (fun _ => false) 3 = (0, Except.ok ()) :=
  (kendoSelect_idempotent_shortCircuit limitTarget limitTarget
    (fun _ => false) (fun _ => false) 3 (by decide)).1

/-- C7 counterexample: the post-search `pace-running` wait of TS001 carries no
catch, so its Timeout propagates to the scenario body — the custom-loading
wait is not non-fatal at every call site. -/
theorem ts001PaceTimeout_propagates :
    ts001PaceChecks none (some (PwError.timeout ['p', 'a', 'c', 'e'])) =
      Except.error (PwError.timeout ['p', 'a', 'c', 'e']) ∧
    ts001PaceChecks none (some (PwError.timeout ['p', 'a', 'c', 'e'])) ≠
      Except.ok () :=
  ⟨rfl, fun h => Except.noConfusion h⟩

/-- C7 (amended): the guarded custom-loading wait
(`HomePage.waitForLoadingComplete`, and the `.catch`-guarded pre-search wait
it models) never propagates a timeout — it always returns success — while the
bare post-search `pace-running` wait propagates every failure it observes. -/
theorem paceWait_guarded_nonFatal_bare_propagates :
    (∀ o, waitForLoadingComplete o = Except.ok ()) ∧
    (∀ e, paceRunningWaitBare (some e) = Except.error e) :=
  ⟨fun o => by cases o <;> rfl, fun _ => rfl⟩

/-- C8 counterexample: the `Navigate to Customer Accounts` test step
re-invokes the failed page-object navigation — after a first failed attempt
and a successful second one it has performed 2 invocations, refuting the
claim that no layer above the primitives ever re-invokes a failed
operation. -/
theorem navStep_reinvokes_failed_operation :
    navigateStepRetry (fun i => if i = 0 then some (PwError.other []) else none) =
      (2, Except.ok ()) ∧
    ¬ ((navigateStepRetry
        (fun i => if i = 0 then some (PwError.other []) else none)).1 ≤ 1) :=
  ⟨rfl, by decide⟩

/-- C8 (amended): retries also occur one layer above the interaction
primitives, in the Customer-Accounts navigation test step: it re-invokes the
failed page-object navigation (a first failure followed by a success yields
exactly 2 invocations) and its retry budget is bounded by the hard-coded
`maxRetries = 3`, so no unbounded re-running occurs at that layer either. -/
theorem navStep_bounded_retry (outcome : Nat → Option PwError) (e : PwError)
    (h0 : outcome 0 = some e) (h1 : outcome 1 = none) :
    navigateStepRetry outcome = (2, Except.ok ()) ∧
    ∀ g : Nat → Option PwError, (navigateStepRetry g).1 ≤ 3 := by
  constructor
  · rw [navigateStepRetry, show (3 : Nat) = 2 + 1 from rfl]
    simp [navRetryFrom, h0, h1]
  · intro g
    have hb : ∀ r a, (navRetryFrom g a r).1 ≤ r := by
      intro r
      induction r with
      | zero => intro a; simp [navRetryFrom]
      | succ r ih =>
          intro a
          simp only [navRetryFrom]
          cases g a with
          | none => simp
          | some e =>
              by_cases hr : r = 0
              · simp [hr]
              · simp only [hr, if_false]
                have := ih (a + 1)
                omega
    exact hb 3 0

/-- Witness for C8 (amended): a navigation that fails once then succeeds. -/
theorem navStep_bounded_retry_witness :
    navigateStepRetry (fun i => if i = 0 then some (PwError.timeout []) else none) =
      (2, Except.ok ()) :=
  (navStep_bounded_retry (fun i => if i = 0 then some (PwError.timeout []) else none)
    (PwError.timeout []) rfl rfl).1

/-- C1 (divergence evaluation): in an all-passing serial run of
`all-test-suite.spec.ts`, the TS002 scenario's completion record is pushed —
but only onto the scenario-local `results` array that shadows the
module-level one, so the report the `afterAll` hook persists contains no
`TS002` record at all, while other scenarios' records (e.g. TS001's) do
appear. -/
theorem ts002_records_missing_from_afterAll_report :
    (mkResult "TS002" "Verify New Quote Creation Flow" true 0) ∈
      (runAllTestSuite ⟨true, true, true, true, true, true, true⟩ 0).2 ∧
    ¬ ("TS002".toList ∈
        (afterAllReport ⟨true, true, true, true, true, true, true⟩ 0).map
          TestResult.testId) ∧
    ("TS001".toList ∈
        (afterAllReport ⟨true, true, true, true, true, true, true⟩ 0).map
          TestResult.testId) := by
  decide

/-- C2: every recorded status falls into exactly one of the three buckets —
`total = passed + failed + skipped` for every collection of reports — with
`timedOut` and `interrupted` mapped to `failed`; and on an empty run the
reporter renders the zero-state: zero rows, total 0 and pass-rate string
`0.0`. -/
theorem report_totals_invariant (reports : List TestReport) :
    totalOf reports = passedOf reports + failedOf reports + skippedOf reports ∧
    mapStatus PwStatus.timedOut = RStatus.failed ∧
    mapStatus PwStatus.interrupted = RStatus.failed ∧
    passRate [] = ['0', '.', '0'] ∧
    (∀ locN locD, renderRows locN locD [] = []) ∧
    totalOf ([] : List TestReport) = 0 := by
  refine ⟨?_, rfl, rfl, rfl, fun locN locD => rfl, rfl⟩
  induction reports with
  | nil => rfl
  | cons r t ih =>
      cases hs : r.status <;>
        simp [totalOf, passedOf, failedOf, skippedOf, List.filter_cons, hs] at ih ⊢ <;>
        omega

/-! ## Escaping lemmas (C9) -/

lemma replaceChar_append (t : Char) (rep l1 l2 : List Char) :
    replaceChar t rep (l1 ++ l2) = replaceChar t rep l1 ++ replaceChar t rep l2 := by
  induction l1 with
  | nil => rfl
  | cons c r ih => simp [replaceChar, ih, List.append_assoc]

lemma escapeHtml_nil : escapeHtml [] = [] := rfl

lemma escapeHtml_cons (c : Char) (s : List Char) :
    escapeHtml (c :: s) = escChar c ++ escapeHtml s := by
  have h1 : replaceChar '&' entAmp (c :: s) =
      (if c = '&' then entAmp else [c]) ++ replaceChar '&' entAmp s := rfl
  simp only [escapeHtml, h1, replaceChar_append]
  congr 1
  by_cases hAmp : c = '&'
  · subst hAmp; decide
  · by_cases hLt : c = '<'
    · subst hLt; decide
    · by_cases hGt : c = '>'
      · subst hGt; decide
      · by_cases hQ : c = dquoteChar
        · subst hQ; decide
        · by_cases hApos : c = squoteChar
          · subst hApos; decide
          · simp [replaceChar, escChar, hAmp, hLt, hGt, hQ, hApos]

lemma escChar_no_special (c : Char) :
    '<' ∉ escChar c ∧ '>' ∉ escChar c ∧
    dquoteChar ∉ escChar c ∧ squoteChar ∉ escChar c := by
  unfold escChar
  split_ifs with h1 h2 h3 h4 h5 <;> refine ⟨?_, ?_, ?_, ?_⟩ <;> try decide
  · simp only [List.mem_singleton]; exact fun h => h2 h.symm
  · simp only [List.mem_singleton]; exact fun h => h3 h.symm
  · simp only [List.mem_singleton]; exact fun h => h4 h.symm
  · simp only [List.mem_singleton]; exact fun h => h5 h.symm

lemma escapeHtml_no_special (s : List Char) :
    '<' ∉ escapeHtml s ∧ '>' ∉ escapeHtml s ∧
    dquoteChar ∉ escapeHtml s ∧ squoteChar ∉ escapeHtml s := by
  induction s with
  | nil => rw [escapeHtml_nil]; refine ⟨?_, ?_, ?_, ?_⟩ <;> simp
  | cons c t ih =>
      rw [escapeHtml_cons]
      have hc := escChar_no_special c
      simp only [List.mem_append, not_or]
      exact ⟨⟨hc.1, ih.1⟩, ⟨hc.2.1, ih.2.1⟩, ⟨hc.2.2.1, ih.2.2.1⟩,
        ⟨hc.2.2.2, ih.2.2.2⟩⟩

lemma ampSafe_nil : ampSafeProp [] := by
  intro i h
  simp at h

lemma ampSafe_cons (c : Char) (hc : c ≠ '&') (l : List Char)
    (h : ampSafeProp l) : ampSafeProp (c :: l) := by
  intro i
  cases i with
  | zero =>
      intro hh
      simp only [List.drop_zero, List.head?_cons, Option.some.injEq] at hh
      exact absurd hh hc
  | succ i =>
      intro hh
      rw [List.drop_succ_cons] at hh ⊢
      exact h i hh

lemma ampSafe_chars : ∀ cs : List Char, '&' ∉ cs →
    ∀ l, ampSafeProp l → ampSafeProp (cs ++ l) := by
  intro cs
  induction cs with
  | nil => intro _ l h; simpa using h
  | cons c t ih =>
      intro hcs l h
      simp only [List.mem_cons, not_or] at hcs
      rw [List.cons_append]
      exact ampSafe_cons c (Ne.symm hcs.1) _ (ih hcs.2 l h)

lemma ampSafe_entity (e : List Char) (he : e ∈ entityList) (t : List Char)
    (het : e = '&' :: t) (l : List Char) (h : ampSafeProp (t ++ l)) :
    ampSafeProp (e ++ l) := by
  subst het
  intro i
  cases i with
  | zero =>
      intro _
      exact ⟨'&' :: t, l, he, by simp⟩
  | succ i =>
      intro hh
      rw [List.cons_append, List.drop_succ_cons] at hh ⊢
      exact h i hh

lemma ampSafe_escChar (c : Char) (l : List Char) (h : ampSafeProp l) :
    ampSafeProp (escChar c ++ l) := by
  by_cases h1 : c = '&'
  · have hec : escChar c = entAmp := by simp [escChar, h1]
    rw [hec]
    exact ampSafe_entity entAmp (by decide) ['a', 'm', 'p', ';'] rfl l
      (ampSafe_chars ['a', 'm', 'p', ';'] (by decide) l h)
  · by_cases h2 : c = '<'
    · have hec : escChar c = entLt := by simp [escChar, h1, h2]
      rw [hec]
      exact ampSafe_entity entLt (by decide) ['l', 't', ';'] rfl l
        (ampSafe_chars ['l', 't', ';'] (by decide) l h)
    · by_cases h3 : c = '>'
      · have hec : escChar c = entGt := by simp [escChar, h1, h2, h3]
        rw [hec]
        exact ampSafe_entity entGt (by decide) ['g', 't', ';'] rfl l
          (ampSafe_chars ['g', 't', ';'] (by decide) l h)
      · by_cases h4 : c = dquoteChar
        · have hec : escChar c = entQuot := by
            simp [escChar, h1, h2, h3, h4]
            decide
          rw [hec]
          exact ampSafe_entity entQuot (by decide) ['q', 'u', 'o', 't', ';'] rfl l
            (ampSafe_chars ['q', 'u', 'o', 't', ';'] (by decide) l h)
        · by_cases h5 : c = squoteChar
          · have hec : escChar c = entApos := by
              simp [escChar, h1, h2, h3, h4, h5]
              decide
            rw [hec]
            exact ampSafe_entity entApos (by decide) ['#', '0', '3', '9', ';'] rfl l
              (ampSafe_chars ['#', '0', '3', '9', ';'] (by decide) l h)
          · have hec : escChar c = [c] := by simp [escChar, h1, h2, h3, h4, h5]
            rw [hec, List.singleton_append]
            exact ampSafe_cons c h1 l h

lemma escapeHtml_ampSafe (s : List Char) : ampSafeProp (escapeHtml s) := by
  induction s with
  | nil => rw [escapeHtml_nil]; exact ampSafe_nil
  | cons c t ih =>
      rw [escapeHtml_cons]
      exact ampSafe_escChar c _ ih

lemma count_escapeHtml_special (x : Char)
    (hx : x = '<' ∨ x = '>' ∨ x = dquoteChar ∨ x = squoteChar)
    (s : List Char) : (escapeHtml s).count x = 0 := by
  rw [List.count_eq_zero]
  have h := escapeHtml_no_special s
  rcases hx with rfl | rfl | rfl | rfl
  exacts [h.1, h.2.1, h.2.2.1, h.2.2.2]

/-- C9: the output of `escapeHtml` contains no raw `<`, `>`, `"` or `'`
character, and every `&` in it starts one of the five emitted entities; and
in the rendered results-table row the test-supplied `testId`/`testName`
fields pass through `escapeHtml`, so varying them never changes the number of
raw markup characters in the row. -/
theorem escapeHtml_output_safety :
    (∀ s : List Char,
        (escapeHtml s).count '<' = 0 ∧
        (escapeHtml s).count '>' = 0 ∧
        (escapeHtml s).count dquoteChar = 0 ∧
        (escapeHtml s).count squoteChar = 0 ∧
        ampSafeProp (escapeHtml s)) ∧
    (∀ tid tnm : List Char, ∀ st : RStatus, ∀ durStr tsStr : List Char,
        (renderTableRow ⟨tid, tnm, st, 0, []⟩ durStr tsStr).count '<' =
          (renderTableRow ⟨[], [], st, 0, []⟩ durStr tsStr).count '<' ∧
        (renderTableRow ⟨tid, tnm, st, 0, []⟩ durStr tsStr).count '>' =
          (renderTableRow ⟨[], [], st, 0, []⟩ durStr tsStr).count '>' ∧
        (renderTableRow ⟨tid, tnm, st, 0, []⟩ durStr tsStr).count dquoteChar =
          (renderTableRow ⟨[], [], st, 0, []⟩ durStr tsStr).count dquoteChar ∧
        (renderTableRow ⟨tid, tnm, st, 0, []⟩ durStr tsStr).count squoteChar =
          (renderTableRow ⟨[], [], st, 0, []⟩ durStr tsStr).count squoteChar) := by
  constructor
  · intro s
    exact ⟨count_escapeHtml_special '<' (Or.inl rfl) s,
      count_escapeHtml_special '>' (Or.inr (Or.inl rfl)) s,
      count_escapeHtml_special dquoteChar (Or.inr (Or.inr (Or.inl rfl))) s,
      count_escapeHtml_special squoteChar (Or.inr (Or.inr (Or.inr rfl))) s,
      escapeHtml_ampSafe s⟩
  · intro tid tnm st durStr tsStr
    refine ⟨?_, ?_, ?_, ?_⟩
    · simp [renderTableRow, List.count_append,
        count_escapeHtml_special '<' (Or.inl rfl)]
    · simp [renderTableRow, List.count_append,
        count_escapeHtml_special '>' (Or.inr (Or.inl rfl))]
    · simp [renderTableRow, List.count_append,
        count_escapeHtml_special dquoteChar (Or.inr (Or.inr (Or.inl rfl)))]
    · simp [renderTableRow, List.count_append,
        count_escapeHtml_special squoteChar (Or.inr (Or.inr (Or.inr rfl)))]

/-! ## Title-parsing lemmas (C10) -/

lemma splitOnColon_ne_nil (l : List Char) : splitOnColon l ≠ [] := by
  cases l with
  | nil => simp [splitOnColon]
  | cons c r => by_cases h : c = ':' <;> simp [splitOnColon, h]

lemma splitOnColon_head (l : List Char) :
    (splitOnColon l).headD [] = segBeforeColon l := by
  induction l with
  | nil => rfl
  | cons c r ih =>
      by_cases h : c = ':'
      · subst h
        simp [splitOnColon, segBeforeColon, List.takeWhile_cons]
      · have hb : (c == ':') = false := beq_eq_false_iff_ne.mpr h
        simp only [segBeforeColon] at ih ⊢
        rw [show splitOnColon (c :: r) =
            (c :: (splitOnColon r).headD []) :: (splitOnColon r).tail from by
          simp [splitOnColon, h]]
        simpa [List.takeWhile_cons, hb] using ih

lemma joinColon_split (l : List Char) : joinColon (splitOnColon l) = l := by
  induction l with
  | nil => rfl
  | cons c r ih =>
      rcases hS : splitOnColon r with _ | ⟨s0, srest⟩
      · exact absurd hS (splitOnColon_ne_nil r)
      · rw [hS] at ih
        by_cases h : c = ':'
        · subst h
          rw [show splitOnColon (':' :: r) = [] :: splitOnColon r from by
            simp [splitOnColon]]
          rw [hS]
          simp only [joinColon]
          simpa using ih
        · rw [show splitOnColon (c :: r) =
              (c :: (splitOnColon r).headD []) :: (splitOnColon r).tail from by
            simp [splitOnColon, h]]
          rw [hS]
          simp only [List.headD_cons, List.tail_cons]
          cases srest with
          | nil =>
              simp only [joinColon] at ih ⊢
              simp [ih]
          | cons u us =>
              simp only [joinColon] at ih ⊢
              rw [List.cons_append, ih]

lemma joinColon_split_tail (l : List Char) :
    joinColon (splitOnColon l).tail = segAfterColon l := by
  induction l with
  | nil => rfl
  | cons c r ih =>
      by_cases h : c = ':'
      · subst h
        rw [show splitOnColon (':' :: r) = [] :: splitOnColon r from by
          simp [splitOnColon]]
        simp only [List.tail_cons]
        rw [joinColon_split r]
        simp [segAfterColon, List.dropWhile_cons]
      · have hb : (c == ':') = false := beq_eq_false_iff_ne.mpr h
        rw [show splitOnColon (c :: r) =
            (c :: (splitOnColon r).headD []) :: (splitOnColon r).tail from by
          simp [splitOnColon, h]]
        simp only [List.tail_cons]
        rw [ih]
        simp [segAfterColon, List.dropWhile_cons, hb]

lemma no_colon_segs : ∀ l : List Char, (':' : Char) ∉ l →
    segBeforeColon l = l ∧ segAfterColon l = [] := by
  intro l
  induction l with
  | nil => intro _; exact ⟨rfl, rfl⟩
  | cons c r ih =>
      intro h
      simp only [List.mem_cons, not_or] at h
      have hc : c ≠ ':' := Ne.symm h.1
      have hb : (c == ':') = false := beq_eq_false_iff_ne.mpr hc
      obtain ⟨h1, h2⟩ := ih h.2
      constructor
      · simp only [segBeforeColon] at h1 ⊢
        simp [List.takeWhile_cons, hb, h1]
      · simp only [segAfterColon] at h2 ⊢
        simp [List.dropWhile_cons, hb, h2]

/-- C10: for every finished test, the reporter derives `testId` from the
trimmed title segment before the first colon and `testName` from the trimmed
colon-rejoined remainder, each falling back to the full unmodified title when
the trimmed segment is empty — in particular `testName` falls back for every
colon-free title — so both fields are non-empty whenever the title is. -/
theorem onTestEnd_title_parsing (title : List Char) (st : PwStatus) (d : Nat)
    (ts : List Char) (h : title ≠ []) :
    ((onTestEnd title st d ts).testId =
       if trimStr (segBeforeColon title) = [] then title
       else trimStr (segBeforeColon title)) ∧
    ((onTestEnd title st d ts).testName =
       if trimStr (segAfterColon title) = [] then title
       else trimStr (segAfterColon title)) ∧
    (onTestEnd title st d ts).testId ≠ [] ∧
    (onTestEnd title st d ts).testName ≠ [] ∧
    ((':' : Char) ∉ title → (onTestEnd title st d ts).testName = title) := by
  have hid : (onTestEnd title st d ts).testId =
      if trimStr (segBeforeColon title) = [] then title
      else trimStr (segBeforeColon title) := by
    simp only [onTestEnd, splitOnColon_head]
  have hnm : (onTestEnd title st d ts).testName =
      if trimStr (segAfterColon title) = [] then title
      else trimStr (segAfterColon title) := by
    simp only [onTestEnd, joinColon_split_tail]
  refine ⟨hid, hnm, ?_, ?_, ?_⟩
  · rw [hid]
    split_ifs with hh
    · exact h
    · exact hh
  · rw [hnm]
    split_ifs with hh
    · exact h
    · exact hh
  · intro hnc
    rw [hnm, (no_colon_segs title hnc).2]
    simp [trimStr]

/-- Witness for C10: the concrete title `TS1: Name`. -/
theorem onTestEnd_title_parsing_witness :
    (onTestEnd ("TS1: Name".toList) PwStatus.passed 5 []).testId =
      if trimStr (segBeforeColon ("TS1: Name".toList)) = [] then "TS1: Name".toList
      else trimStr (segBeforeColon ("TS1: Name".toList)) :=
  (onTestEnd_title_parsing ("TS1: Name".toList) PwStatus.passed 5 [] (by decide)).1

end Spec2Proof
